import Mathlib

/-
Verification development for the drone web-control repository
(`app.py` + `patterns.py`).

`app.py` is embedded as an explicit state machine: the module-level
`flight_state` dict becomes `FlightState`, each Flask route handler becomes
one case of `stepE`, and a run of the server is a fold of `stepE` over a
list of operations.  `run_async` swallows every exception of the underlying
vehicle-link coroutine (it catches, prints and returns `None`), so from the
route handlers' point of view the vehicle-link calls never raise; they are
recorded as effects (`linkCalls`) rather than modelled as fallible.
Wall-clock timestamps (`datetime.now()`) and `asyncio.sleep` delays are
outside the embedding; numeric request fields are modelled as exact
rationals, the geometric curve formulas of `patterns.py` as real-valued
functions.
-/

open scoped Classical

/-- One entry of `flight_state["logs"]`, as built by `add_log` in app.py
(the wall-clock `timestamp` field is not modelled). -/
structure LogEntry where
  action : String
  status : String
  details : String
deriving DecidableEq, Repr, Inhabited

/-- app.py `add_log`: `logs.insert(0, entry)` then `if len(logs) > 50: logs.pop()`
(Python `pop()` with no index removes the last element). -/
def addLog (e : LogEntry) (l : List LogEntry) : List LogEntry :=
  if 50 < (e :: l).length then (e :: l).dropLast else e :: l

/-- The eight recognized pattern identifiers of app.py's `pattern_map`. -/
inductive Shape where
  | square | triangle | circle | star | infinity | heart | spiral | figure8
deriving DecidableEq, Repr, Inhabited

/-- Lookup of a (lower-cased) shape string in app.py's `pattern_map`. -/
def parseShape : String → Option Shape
  | "square" => some .square
  | "triangle" => some .triangle
  | "circle" => some .circle
  | "star" => some .star
  | "infinity" => some .infinity
  | "heart" => some .heart
  | "spiral" => some .spiral
  | "figure8" => some .figure8
  | _ => none

/-- Python's `str.lower()` on ASCII identifiers, character by character. -/
def pyLower (s : String) : String := String.mk (s.data.map Char.toLower)

/-- The module-level `flight_state` dict of app.py. -/
structure FlightState where
  is_flying : Bool
  is_offboard : Bool
  current_pattern : Option Shape
  mission_count : Nat
  flight_time : ℚ
  logs : List LogEntry
  velocity_enabled : Bool
deriving DecidableEq, Repr

/-- Initial value of `flight_state` in app.py. -/
def initState : FlightState :=
  { is_flying := false
    is_offboard := false
    current_pattern := none
    mission_count := 0
    flight_time := 0
    logs := []
    velocity_enabled := false }

/-- The operations the web layer can invoke (one per Flask route that
touches the flight state; request-body fields are the arguments). -/
inductive Op where
  | arm
  | disarm
  | takeoff
  | land
  | rtl
  | emergency
  | pattern (shape : String) (size height speed : ℚ)
  | offboardStart
  | offboardStop
  | velocity (vx vy vz yawRate : ℚ)
  | clearLogs
deriving DecidableEq, Repr

/-- Terminal report of a route: the JSON `status` payload or the JSON
`error` payload (HTTP 4xx/5xx). -/
inductive Outcome where
  | ok (msg : String)
  | err (msg : String)
deriving DecidableEq, Repr

/-- A synchronous vehicle-link call issued by a route handler via `run_async`. -/
inductive LinkCall where
  | armAction
  | disarmAction
  | takeoffAction
  | landAction
  | rtlAction
  | killAction
  | offboardStartCall
  | offboardStopCall
  | setVelocityBody (vx vy vz yawRate : ℚ)
deriving DecidableEq, Repr

/-- Everything one route invocation produces: the new flight state, the
terminal report, the log entries appended (in creation order), the pattern
worker launched (shape plus the size/height/speed it receives), and the
synchronous vehicle-link calls. -/
structure StepResult where
  state : FlightState
  outcome : Outcome
  entries : List LogEntry
  spawned : Option (Shape × ℚ × ℚ × ℚ)
  linkCalls : List LinkCall
deriving DecidableEq, Repr

/-- Append a batch of log entries (in creation order) to a state's log ring. -/
def logAll (es : List LogEntry) (s : FlightState) : FlightState :=
  { s with logs := es.foldl (fun l e => addLog e l) s.logs }

/-- One route invocation of app.py, case by case.

* `arm`/`disarm`/`takeoff`/`land`/`rtl`/`emergency`: the vehicle-link calls
  cannot raise into the handler (`run_async` swallows), so each handler runs
  its success path: field updates and one success log entry.
* `pattern`: rejects with no log when `current_pattern is not None`;
  otherwise lower-cases the shape, normalizes `height = -abs(height)`,
  rejects unknown shapes with one error log, and on acceptance stores the
  shape, logs `started`, and spawns the worker thread (the worker's own
  completion log and state reset happen later, on the worker thread, and
  are not an operation of this machine).
* `offboard_start`/`offboard_stop`: early-return with no log when already
  in the requested mode.
* `velocity`: guard `is_offboard and velocity_enabled`; no log either way.
* `logs/clear`: resets the ring, then logs the clearing itself. -/
def stepE (s : FlightState) : Op → StepResult
  | .arm =>
      let e : LogEntry := ⟨"ARM", "success", "Drone armed"⟩
      ⟨logAll [e] s, .ok "armed", [e], none, [.armAction]⟩
  | .disarm =>
      let e : LogEntry := ⟨"DISARM", "success", "Drone disarmed"⟩
      ⟨logAll [e] { s with is_offboard := false, is_flying := false,
                           velocity_enabled := false, current_pattern := none },
       .ok "disarmed", [e], none,
       (if s.is_offboard then [LinkCall.offboardStopCall] else []) ++ [.disarmAction]⟩
  | .takeoff =>
      let e : LogEntry := ⟨"TAKEOFF", "success", "Taking off"⟩
      ⟨logAll [e] { s with is_flying := true, mission_count := s.mission_count + 1 },
       .ok "taking off", [e], none, [.armAction, .takeoffAction]⟩
  | .land =>
      let e : LogEntry := ⟨"LAND", "success", "Landing initiated"⟩
      ⟨logAll [e] { s with is_offboard := false, is_flying := false,
                           current_pattern := none, velocity_enabled := false },
       .ok "landing", [e], none,
       (if s.is_offboard then [LinkCall.offboardStopCall] else []) ++ [.landAction]⟩
  | .rtl =>
      let e : LogEntry := ⟨"RTL", "success", "Returning to launch"⟩
      ⟨logAll [e] { s with is_offboard := false,
                           current_pattern := none, velocity_enabled := false },
       .ok "returning to launch", [e], none,
       (if s.is_offboard then [LinkCall.offboardStopCall] else []) ++ [.rtlAction]⟩
  | .emergency =>
      let e : LogEntry := ⟨"EMERGENCY", "success", "Emergency stop activated"⟩
      ⟨logAll [e] { s with is_offboard := false, is_flying := false,
                           current_pattern := none, velocity_enabled := false },
       .ok "emergency stop", [e], none,
       (if s.is_offboard then [LinkCall.offboardStopCall] else []) ++ [.killAction]⟩
  | .pattern shape size height speed =>
      if s.current_pattern.isSome then
        ⟨s, .err "Pattern already running", [], none, []⟩
      else
        let sh := pyLower shape
        match parseShape sh with
        | none =>
            let e : LogEntry := ⟨"PATTERN", "error", "Unknown shape: " ++ sh⟩
            ⟨logAll [e] s, .err "unknown shape", [e], none, []⟩
        | some p =>
            let e : LogEntry := ⟨"PATTERN", "started", sh ++ " pattern initiated"⟩
            ⟨logAll [e] { s with current_pattern := some p },
             .ok (sh ++ " pattern started"), [e],
             some (p, size, -|height|, speed), []⟩
  | .offboardStart =>
      if s.is_offboard then
        ⟨s, .ok "offboard already active", [], none, []⟩
      else
        let e : LogEntry := ⟨"OFFBOARD", "success", "Offboard mode started"⟩
        ⟨logAll [e] { s with is_offboard := true, velocity_enabled := true,
                             is_flying := true },
         .ok "offboard started", [e], none,
         [.setVelocityBody 0 0 0 0, .offboardStartCall]⟩
  | .offboardStop =>
      if !s.is_offboard then
        ⟨s, .ok "offboard not active", [], none, []⟩
      else
        let e : LogEntry := ⟨"OFFBOARD", "success", "Offboard mode stopped"⟩
        ⟨logAll [e] { s with is_offboard := false, velocity_enabled := false },
         .ok "offboard stopped", [e], none, [.offboardStopCall]⟩
  | .velocity vx vy vz yawRate =>
      if !s.is_offboard || !s.velocity_enabled then
        ⟨s, .err "offboard mode not active", [], none, []⟩
      else
        ⟨s, .ok "velocity set", [], none, [.setVelocityBody vx vy vz yawRate]⟩
  | .clearLogs =>
      let e : LogEntry := ⟨"SYSTEM", "success", "Logs cleared"⟩
      ⟨{ s with logs := addLog e [] }, .ok "logs cleared", [e], none, []⟩

/-- Run a sequence of operations from the initial flight state. -/
def run (ops : List Op) : FlightState :=
  ops.foldl (fun s op => (stepE s op).state) initState

/-- The eight shape identifier strings, as keyed in app.py's `pattern_map`
(used in the worker's completion log text). -/
def shapeName : Shape → String
  | .square => "square"
  | .triangle => "triangle"
  | .circle => "circle"
  | .star => "star"
  | .infinity => "infinity"
  | .heart => "heart"
  | .spiral => "spiral"
  | .figure8 => "figure8"

/-- An event of the full system: either a synchronous route invocation, or
the asynchronous completion of a previously spawned pattern worker
(`execute_pattern` in app.py returning, at an arbitrary later point). -/
inductive Ev where
  | route (o : Op)
  | patternComplete (sh : Shape)
deriving DecidableEq, Repr

/-- Whether an event is a `startPattern` route request. -/
def Ev.isPatternRequest : Ev → Bool
  | .route (.pattern _ _ _ _) => true
  | _ => false

/-- One step of the full system over `FlightState` paired with the number
of outstanding spawned pattern workers.

* A route invocation runs `stepE`; spawning a worker increments the
  outstanding count.
* A worker completion (`execute_pattern`'s tail in app.py): `run_async`
  swallows the coroutine's exception, so the `except` branch is dead and
  the completion always logs `PATTERN success "{shape} pattern completed"`;
  the `finally` then sets `current_pattern = None` and
  `is_offboard = False` — and does NOT clear `velocity_enabled`.  A
  completion can only occur while a spawned worker is outstanding; with
  none outstanding the event is a no-op (it cannot happen). -/
def stepSys (sk : FlightState × ℕ) (e : Ev) : FlightState × ℕ :=
  match sk, e with
  | (s, k), .route o =>
      let r := stepE s o
      (r.state, if r.spawned.isSome then k + 1 else k)
  | (s, k), .patternComplete sh =>
      if k = 0 then (s, k)
      else
        let e : LogEntry :=
          ⟨"PATTERN", "success", shapeName sh ++ " pattern completed"⟩
        (logAll [e] { s with current_pattern := none, is_offboard := false },
         k - 1)

/-- Run a sequence of full-system events from the initial flight state
with no outstanding workers. -/
def runSys (evs : List Ev) : FlightState × ℕ :=
  evs.foldl stepSys (initState, 0)

/-- Python `int()` truncation toward zero, on exact rationals. -/
def pyInt (q : ℚ) : ℤ :=
  if 0 ≤ q then ⌊q⌋ else -⌊-q⌋

/-- The per-sample retransmission count of the continuous-curve patterns:
`repeat = max(3, int(delay * 10))` in patterns.py. -/
def repeatCount (d : ℚ) : ℕ :=
  (max 3 (pyInt (d * 10))).toNat

/-- One `PositionNedYaw` setpoint sent to `drone.offboard.set_position_ned`. -/
structure Setpoint where
  x : ℝ
  y : ℝ
  z : ℝ
  yaw : ℝ
deriving Inhabited

/-- A vertex-pattern waypoint of a shape whose coordinates stay rational
(the square): target position, heading and hold duration passed to
`fly_to_position`. -/
structure WaypointQ where
  x : ℚ
  y : ℚ
  z : ℚ
  yaw : ℚ
  hold : ℚ
deriving DecidableEq, Repr, Inhabited

/-- A vertex-pattern waypoint with real coordinates (triangle, star). -/
structure WaypointR where
  x : ℝ
  y : ℝ
  z : ℝ
  yaw : ℝ
  hold : ℚ
deriving Inhabited

/-- Radians-to-degrees conversion (`math.degrees`). -/
noncomputable def degOf (r : ℝ) : ℝ := r * 180 / Real.pi

/-- Two-argument arctangent (`math.atan2(y, x)`), as the principal argument
of the complex number `x + y*i`. -/
noncomputable def atan2 (y x : ℝ) : ℝ := Complex.arg ((x : ℂ) + (y : ℂ) * Complex.I)

/-- Bearing, in degrees, of the displacement `(dx, dy)`:
`math.degrees(math.atan2(dy, dx))`. -/
noncomputable def bearingDeg (dx dy : ℝ) : ℝ := degOf (atan2 dy dx)

/-- The position setpoints sent by `prepare_offboard` in patterns.py: the
seed setpoint `(0, 0, height, 0)` before `offboard.start()`, then the same
origin setpoint re-sent 3 times. -/
noncomputable def prepareSetpoints (h : ℝ) : List Setpoint :=
  List.replicate 4 ⟨0, 0, h, 0⟩

/-- The position setpoints sent by `fly_to_position`: `int(duration * 10)`
sends at 10 Hz, then 20 further sends to hold the position. -/
noncomputable def flyToSetpoints (x y z yaw : ℝ) (duration : ℚ) : List Setpoint :=
  List.replicate ((pyInt (duration * 10)).toNat + 20) ⟨x, y, z, yaw⟩

/-- The five square corners of `fly_square`, with the yaw the source pairs
with each corner and the hold `flight_time = max(3.0, delay * 3)`. -/
def squareWaypoints (size h d : ℚ) : List WaypointQ :=
  let ft := max 3 (d * 3)
  [⟨0, 0, h, 0, ft⟩,
   ⟨size, 0, h, 90, ft⟩,
   ⟨size, size, h, 180, ft⟩,
   ⟨0, size, h, 270, ft⟩,
   ⟨0, 0, h, 0, ft⟩]

/-- The four waypoints of `fly_triangle` (`h = size * sqrt(3) / 2`), with
the source's fixed yaw per vertex and hold `max(3.0, delay * 3)`. -/
noncomputable def triangleWaypoints (size h : ℝ) (d : ℚ) : List WaypointR :=
  let ft := max 3 (d * 3)
  [⟨0, 0, h, 60, ft⟩,
   ⟨size, 0, h, 180, ft⟩,
   ⟨size / 2, size * Real.sqrt 3 / 2, h, 300, ft⟩,
   ⟨0, 0, h, 0, ft⟩]

/-- Vertex `i` of the five star points of `fly_star`:
`angle = 2*pi*i/5 - pi/2`, position `(size*cos, size*sin)`. -/
noncomputable def starVertex (size : ℝ) (i : ℕ) : ℝ × ℝ :=
  let angle := 2 * Real.pi * i / 5 - Real.pi / 2
  (size * Real.cos angle, size * Real.sin angle)

/-- The traversal order `0→2→4→1→3→0` of `fly_star`. -/
def starOrder : List ℕ := [0, 2, 4, 1, 3, 0]

/-- The six waypoints of `fly_star`: vertices in `starOrder`, yaw
`degrees(atan2(y, x))` of the vertex itself, hold
`flight_time = max(2.5, delay * 2.5)`. -/
noncomputable def starWaypoints (size h : ℝ) (d : ℚ) : List WaypointR :=
  starOrder.map (fun idx =>
    let p := starVertex size idx
    ⟨p.1, p.2, h, degOf (atan2 p.2 p.1), max (5/2) (d * 5/2)⟩)

/-- Expand a rational-coordinate waypoint into its `fly_to_position` stream. -/
noncomputable def wpQSetpoints (w : WaypointQ) : List Setpoint :=
  flyToSetpoints w.x w.y w.z w.yaw w.hold

/-- Expand a real-coordinate waypoint into its `fly_to_position` stream. -/
noncomputable def wpRSetpoints (w : WaypointR) : List Setpoint :=
  flyToSetpoints w.x w.y w.z w.yaw w.hold

/-- Full setpoint stream of `fly_square`: priming, then each corner's
`fly_to_position` stream. -/
noncomputable def squareSetpoints (size h : ℚ) (d : ℚ) : List Setpoint :=
  prepareSetpoints (h : ℝ) ++ (squareWaypoints size h d).flatMap wpQSetpoints

/-- Full setpoint stream of `fly_triangle`. -/
noncomputable def triangleSetpoints (size h : ℝ) (d : ℚ) : List Setpoint :=
  prepareSetpoints h ++ (triangleWaypoints size h d).flatMap wpRSetpoints

/-- Full setpoint stream of `fly_star`. -/
noncomputable def starSetpoints (size h : ℝ) (d : ℚ) : List Setpoint :=
  prepareSetpoints h ++ (starWaypoints size h d).flatMap wpRSetpoints

/-- Lemniscate-of-Gerono x coordinate of `fly_infinity`: `size * cos(t)`. -/
noncomputable def infinityX (s t : ℝ) : ℝ := s * Real.cos t

/-- Lemniscate-of-Gerono y coordinate of `fly_infinity`:
`size * sin(t) * cos(t)`. -/
noncomputable def infinityY (s t : ℝ) : ℝ := s * Real.sin t * Real.cos t

/-- Heart-curve x coordinate of `fly_heart`: `size * 16 * sin(t)**3 / 16`. -/
noncomputable def heartX (s t : ℝ) : ℝ := s * 16 * (Real.sin t) ^ 3 / 16

/-- Heart-curve y coordinate of `fly_heart`:
`size * (13*cos(t) - 5*cos(2t) - 2*cos(3t) - cos(4t)) / 16`. -/
noncomputable def heartY (s t : ℝ) : ℝ :=
  s * (13 * Real.cos t - 5 * Real.cos (2 * t) - 2 * Real.cos (3 * t)
        - Real.cos (4 * t)) / 16

/-- Lissajous x coordinate of `fly_figure8`, with `scale = size / 1.5`:
`scale * sin(t)`. -/
noncomputable def figure8X (s t : ℝ) : ℝ := (s / 1.5) * Real.sin t

/-- Lissajous y coordinate of `fly_figure8`: `scale * sin(t) * cos(t)`. -/
noncomputable def figure8Y (s t : ℝ) : ℝ := (s / 1.5) * Real.sin t * Real.cos t

/-- Sample `i` of `total_steps` on the circle of `fly_circle`:
`angle = 2*pi*i/total_steps`, position `(r*cos, r*sin)`, yaw tangent to the
circle (`degrees(angle + pi/2)`). -/
noncomputable def circlePoint (r h : ℝ) (n i : ℕ) : Setpoint :=
  let angle := 2 * Real.pi * i / n
  ⟨r * Real.cos angle, r * Real.sin angle, h, degOf (angle + Real.pi / 2)⟩

/-- Yaw at sample `i` of `fly_infinity`: forward finite difference to sample
`i+1`, falling back to `0` when the displacement is below the 0.01 noise
threshold and at the final sample. -/
noncomputable def infinityYaw (s : ℝ) (n i : ℕ) : ℝ :=
  if i < n then
    let t := 2 * Real.pi * i / n
    let t2 := 2 * Real.pi * (i + 1) / n
    let dx := infinityX s t2 - infinityX s t
    let dy := infinityY s t2 - infinityY s t
    if 0.01 < |dx| ∨ 0.01 < |dy| then degOf (atan2 dy dx) else 0
  else 0

/-- Sample `i` of `fly_infinity`: `t = 2*pi*i/total_steps`. -/
noncomputable def infinityPoint (s h : ℝ) (n i : ℕ) : Setpoint :=
  let t := 2 * Real.pi * i / n
  ⟨infinityX s t, infinityY s t, h, infinityYaw s n i⟩

/-- Yaw at sample `i` of `fly_heart`: forward finite difference, fallback `90`. -/
noncomputable def heartYaw (s : ℝ) (n i : ℕ) : ℝ :=
  if i < n then
    let t := 2 * Real.pi * i / n
    let t2 := 2 * Real.pi * (i + 1) / n
    let dx := heartX s t2 - heartX s t
    let dy := heartY s t2 - heartY s t
    if 0.01 < |dx| ∨ 0.01 < |dy| then degOf (atan2 dy dx) else 90
  else 90

/-- Sample `i` of `fly_heart`. -/
noncomputable def heartPoint (s h : ℝ) (n i : ℕ) : Setpoint :=
  let t := 2 * Real.pi * i / n
  ⟨heartX s t, heartY s t, h, heartYaw s n i⟩

/-- Sample `i` of `fly_spiral`: `t = 5*2*pi*i/total_steps`,
`radius = max_radius*i/total_steps`, yaw `degrees(t + pi/2)`. -/
noncomputable def spiralPoint (s h : ℝ) (n i : ℕ) : Setpoint :=
  let t := 5 * (2 * Real.pi) * i / n
  let radius := s * i / n
  ⟨radius * Real.cos t, radius * Real.sin t, h, degOf (t + Real.pi / 2)⟩

/-- Yaw at sample `i` of `fly_figure8`: forward finite difference, fallback `90`. -/
noncomputable def figure8Yaw (s : ℝ) (n i : ℕ) : ℝ :=
  if i < n then
    let t := 2 * Real.pi * i / n
    let t2 := 2 * Real.pi * (i + 1) / n
    let dx := figure8X s t2 - figure8X s t
    let dy := figure8Y s t2 - figure8Y s t
    if 0.01 < |dx| ∨ 0.01 < |dy| then degOf (atan2 dy dx) else 90
  else 90

/-- Sample `i` of `fly_figure8`. -/
noncomputable def figure8Point (s h : ℝ) (n i : ℕ) : Setpoint :=
  let t := 2 * Real.pi * i / n
  ⟨figure8X s t, figure8Y s t, h, figure8Yaw s n i⟩

/-- The drawing loop shared by the continuous-curve patterns: each of the
`n + 1` samples is re-sent `repeat = max(3, int(delay * 10))` times before
the loop advances to the next sample. -/
noncomputable def drawSegment (pt : ℕ → Setpoint) (n : ℕ) (d : ℚ) : List Setpoint :=
  (List.range (n + 1)).flatMap (fun i => List.replicate (repeatCount d) (pt i))

/-- Full setpoint stream of `fly_circle` (`total_steps = max(steps, 100)`):
priming, transit to `(radius, 0)` with yaw 90 for 3 s, the drawing loop,
then 20 holds at the `t = 2*pi` endpoint. -/
noncomputable def circleSetpoints (r h : ℝ) (steps : ℕ) (d : ℚ) : List Setpoint :=
  let n := max steps 100
  prepareSetpoints h ++ flyToSetpoints r 0 h 90 3
    ++ drawSegment (circlePoint r h n) n d
    ++ List.replicate 20
        ⟨r * Real.cos (2 * Real.pi), r * Real.sin (2 * Real.pi), h, 90⟩

/-- Full setpoint stream of `fly_infinity` (`total_steps = max(steps, 120)`):
priming, transit to `(size, 0)` with yaw 0 for 3 s, the drawing loop, then
20 holds at `(size, 0)`. -/
noncomputable def infinitySetpoints (s h : ℝ) (steps : ℕ) (d : ℚ) : List Setpoint :=
  let n := max steps 120
  prepareSetpoints h ++ flyToSetpoints s 0 h 0 3
    ++ drawSegment (infinityPoint s h n) n d
    ++ List.replicate 20 ⟨s, 0, h, 0⟩

/-- Full setpoint stream of `fly_heart` (`total_steps = max(steps, 150)`):
priming, transit to the `t = 0` point with yaw 90 for 3 s, the drawing
loop, then 20 holds at the start point. -/
noncomputable def heartSetpoints (s h : ℝ) (steps : ℕ) (d : ℚ) : List Setpoint :=
  let n := max steps 150
  prepareSetpoints h ++ flyToSetpoints (heartX s 0) (heartY s 0) h 90 3
    ++ drawSegment (heartPoint s h n) n d
    ++ List.replicate 20 ⟨heartX s 0, heartY s 0, h, 90⟩

/-- Full setpoint stream of `fly_spiral` (`total_steps = max(steps, 100)`):
priming, transit to the center for 3 s, the 5-turn outward drawing loop,
then 20 holds at the outer endpoint. -/
noncomputable def spiralSetpoints (s h : ℝ) (steps : ℕ) (d : ℚ) : List Setpoint :=
  let n := max steps 100
  prepareSetpoints h ++ flyToSetpoints 0 0 h 0 3
    ++ drawSegment (spiralPoint s h n) n d
    ++ List.replicate 20
        ⟨s * Real.cos (5 * (2 * Real.pi)), s * Real.sin (5 * (2 * Real.pi)), h, 90⟩

/-- Full setpoint stream of `fly_figure8` (`total_steps = max(steps, 120)`):
priming, transit to the `t = 0` point with yaw 90 for 3 s, the drawing
loop, then 20 holds at the start point. -/
noncomputable def figure8Setpoints (s h : ℝ) (steps : ℕ) (d : ℚ) : List Setpoint :=
  let n := max steps 120
  prepareSetpoints h ++ flyToSetpoints (figure8X s 0) (figure8Y s 0) h 90 3
    ++ drawSegment (figure8Point s h n) n d
    ++ List.replicate 20 ⟨figure8X s 0, figure8Y s 0, h, 90⟩

/-- The setpoint stream the pattern worker produces, per shape, with the
step counts app.py's `pattern_map` hard-codes (circle 30, infinity 40,
heart 50, spiral 30, figure8 40). -/
noncomputable def patternSetpoints (sh : Shape) (size h d : ℚ) : List Setpoint :=
  match sh with
  | .square => squareSetpoints size h d
  | .triangle => triangleSetpoints size h d
  | .circle => circleSetpoints size h 30 d
  | .star => starSetpoints size h d
  | .infinity => infinitySetpoints size h 40 d
  | .heart => heartSetpoints size h 50 d
  | .spiral => spiralSetpoints size h 30 d
  | .figure8 => figure8Setpoints size h 40 d

lemma addLog_length_le (e : LogEntry) (l : List LogEntry) (h : l.length ≤ 50) :
    (addLog e l).length ≤ 50 := by
  simp only [addLog, List.length_cons]
  split <;> simp only [List.length_dropLast, List.length_cons] <;> omega

lemma foldl_addLog_length_le (es : List LogEntry) (l : List LogEntry)
    (h : l.length ≤ 50) : (es.foldl (fun acc e => addLog e acc) l).length ≤ 50 := by
  induction es generalizing l with
  | nil => exact h
  | cons e es ih => exact ih _ (addLog_length_le e l h)

lemma stepE_logs_length_le (s : FlightState) (op : Op) (h : s.logs.length ≤ 50) :
    ((stepE s op).state).logs.length ≤ 50 := by
  cases op <;>
    simp only [stepE, logAll, List.foldl_cons, List.foldl_nil] <;>
    (try split) <;> (try split) <;>
    first
      | exact h
      | exact addLog_length_le _ _ h
      | exact addLog_length_le _ _ (by simp)

lemma run_foldl_logs_le (ops : List Op) :
    ∀ s : FlightState, s.logs.length ≤ 50 →
      ((ops.foldl (fun s op => (stepE s op).state) s)).logs.length ≤ 50 := by
  induction ops with
  | nil => intro s h; exact h
  | cons op ops ih => intro s h; exact ih _ (stepE_logs_length_le s op h)

/-- C9 (confirmed): after any sequence of operations the log ring holds at
most 50 entries; appending to a full ring evicts the oldest (last) entry;
and the entry just appended is always at index 0. -/
theorem log_ring_bounded_newest_first :
    (∀ ops : List Op, ((run ops).logs).length ≤ 50) ∧
    (∀ (e : LogEntry) (l : List LogEntry), l.length = 50 →
      addLog e l = e :: l.dropLast) ∧
    (∀ (e : LogEntry) (l : List LogEntry), (addLog e l).head? = some e) := by
  refine ⟨fun ops => run_foldl_logs_le ops initState (by simp [initState]), ?_, ?_⟩
  · intro e l h
    simp only [addLog, List.length_cons, h]
    rw [if_pos (by omega)]
    cases l with
    | nil => simp at h
    | cons a t => simp [List.dropLast_cons₂]
  · intro e l
    simp only [addLog]
    split
    · cases l with
      | nil => simp_all
      | cons a t => simp [List.dropLast_cons₂]
    · simp

/-- Witness for C9: appending to a concrete full ring of 50 entries keeps
the newest entry at the head and drops the last. -/
theorem log_ring_bounded_newest_first_witness :
    addLog ⟨"NEW", "success", "x"⟩ (List.replicate 50 ⟨"OLD", "success", "y"⟩) =
      ⟨"NEW", "success", "x"⟩ ::
        (List.replicate 50 (⟨"OLD", "success", "y"⟩ : LogEntry)).dropLast :=
  log_ring_bounded_newest_first.2.1 _ _ (by simp)

lemma stepE_preserves_vel_imp_off (s : FlightState) (op : Op)
    (h : s.velocity_enabled = true → s.is_offboard = true) :
    (stepE s op).state.velocity_enabled = true →
      (stepE s op).state.is_offboard = true := by
  cases op <;>
    simp only [stepE, logAll] <;>
    (try split) <;> (try split) <;>
    simp_all

lemma stepSys_no_pattern_inv (s : FlightState) (k : ℕ) (e : Ev)
    (he : e.isPatternRequest = false)
    (h1 : s.velocity_enabled = true → s.is_offboard = true)
    (h2 : s.current_pattern = none) (hk : k = 0) :
    ((stepSys (s, k) e).1.velocity_enabled = true →
      (stepSys (s, k) e).1.is_offboard = true) ∧
    (stepSys (s, k) e).1.current_pattern = none ∧ (stepSys (s, k) e).2 = 0 := by
  subst hk
  cases e with
  | route o =>
    refine ⟨stepE_preserves_vel_imp_off s o h1, ?_, ?_⟩
    · cases o <;>
        simp only [stepSys, stepE, logAll] <;>
        (try split) <;> (try split) <;>
        simp_all [Ev.isPatternRequest]
    · cases o <;>
        simp only [stepSys, stepE, logAll] <;>
        (try split) <;> (try split) <;>
        simp_all [Ev.isPatternRequest]
  | patternComplete sh =>
    simp only [stepSys, if_pos rfl]
    exact ⟨h1, h2, rfl⟩

lemma stepSys_off_imp_vel (s : FlightState) (k : ℕ) (e : Ev)
    (h : s.is_offboard = true → s.velocity_enabled = true) :
    (stepSys (s, k) e).1.is_offboard = true →
      (stepSys (s, k) e).1.velocity_enabled = true := by
  cases e with
  | route o =>
    cases o <;>
      simp only [stepSys, stepE, logAll] <;>
      (try split) <;> (try split) <;>
      simp_all
  | patternComplete sh =>
    simp only [stepSys]
    split <;> simp_all [logAll]

/-- C1 counterexample: both claimed invariants fail on the full system
(routes plus worker completions).  One accepted `startPattern` sets
`current_pattern` while `is_offboard` is still false; and after
`offboard/start`, an accepted pattern and that worker's completion, the
completion handler's `finally` has cleared `is_offboard` while leaving
`velocity_enabled` set. -/
theorem claimed_invariant_pair_fails :
    ¬ (((runSys [Ev.route (Op.pattern "square" 4 3 1)]).1.velocity_enabled =
            true →
          (runSys [Ev.route (Op.pattern "square" 4 3 1)]).1.is_offboard =
            true) ∧
        ((runSys
              [Ev.route (Op.pattern "square" 4 3 1)]).1.current_pattern.isSome =
            true →
          (runSys [Ev.route (Op.pattern "square" 4 3 1)]).1.is_offboard =
            true)) ∧
    ¬ (((runSys [Ev.route Op.offboardStart,
            Ev.route (Op.pattern "square" 4 3 1),
            Ev.patternComplete Shape.square]).1.velocity_enabled = true →
          (runSys [Ev.route Op.offboardStart,
            Ev.route (Op.pattern "square" 4 3 1),
            Ev.patternComplete Shape.square]).1.is_offboard = true) ∧
        ((runSys [Ev.route Op.offboardStart,
            Ev.route (Op.pattern "square" 4 3 1),
            Ev.patternComplete Shape.square]).1.current_pattern.isSome =
            true →
          (runSys [Ev.route Op.offboardStart,
            Ev.route (Op.pattern "square" 4 3 1),
            Ev.patternComplete Shape.square]).1.is_offboard = true)) := by
  decide

/-- C1 (corrected, amended): over the full system — route operations plus
pattern-worker completions — the two claimed invariants hold only for
event sequences containing no `startPattern` request (then no worker ever
runs and both are maintained).  Pattern activity breaks both: see the
counterexample.  What remains true after arbitrary event sequences is the
converse pairing `is_offboard` implies `velocity_enabled`, because
`offboard/start` sets both flags, every route that clears `is_offboard`
also clears `velocity_enabled`, and the completion handler only ever
clears `is_offboard`. -/
lemma runSys_foldl_no_pattern (evs : List Ev) :
    ∀ (s : FlightState) (k : ℕ),
      (evs.all fun e => !e.isPatternRequest) = true →
      (s.velocity_enabled = true → s.is_offboard = true) →
      s.current_pattern = none → k = 0 →
      ((evs.foldl stepSys (s, k)).1.velocity_enabled = true →
        (evs.foldl stepSys (s, k)).1.is_offboard = true) ∧
      (evs.foldl stepSys (s, k)).1.current_pattern = none ∧
      (evs.foldl stepSys (s, k)).2 = 0 := by
  induction evs with
  | nil => intro s k _ h1 h2 hk; subst hk; exact ⟨h1, h2, rfl⟩
  | cons e evs ih =>
    intro s k hall h1 h2 hk
    simp only [List.all_cons, Bool.and_eq_true, Bool.not_eq_true'] at hall
    subst hk
    have hstep := stepSys_no_pattern_inv s 0 e hall.1 h1 h2 rfl
    simp only [List.foldl_cons]
    exact ih (stepSys (s, 0) e).1 (stepSys (s, 0) e).2 hall.2
      hstep.1 hstep.2.1 hstep.2.2

lemma runSys_foldl_off_imp_vel (evs : List Ev) :
    ∀ (s : FlightState) (k : ℕ),
      (s.is_offboard = true → s.velocity_enabled = true) →
      ((evs.foldl stepSys (s, k)).1.is_offboard = true →
        (evs.foldl stepSys (s, k)).1.velocity_enabled = true) := by
  induction evs with
  | nil => intro s k h; exact h
  | cons e evs ih =>
    intro s k h
    simp only [List.foldl_cons]
    exact ih (stepSys (s, k) e).1 (stepSys (s, k) e).2
      (stepSys_off_imp_vel s k e h)

/-- C1 (corrected, amended): over the full system — route operations plus
pattern-worker completions — the two claimed invariants hold only for
event sequences containing no `startPattern` request (then no worker ever
runs and both are maintained).  Pattern activity breaks both: see the
counterexample.  What remains true after arbitrary event sequences is the
converse pairing `is_offboard` implies `velocity_enabled`, because
`offboard/start` sets both flags, every route that clears `is_offboard`
also clears `velocity_enabled`, and the completion handler only ever
clears `is_offboard`. -/
theorem invariants_only_without_pattern_requests (evs : List Ev) :
    ((evs.all fun e => !e.isPatternRequest) = true →
      ((runSys evs).1.velocity_enabled = true →
        (runSys evs).1.is_offboard = true) ∧
      ((runSys evs).1.current_pattern.isSome = true →
        (runSys evs).1.is_offboard = true)) ∧
    ((runSys evs).1.is_offboard = true →
      (runSys evs).1.velocity_enabled = true) := by
  constructor
  · intro hall
    have h0 := runSys_foldl_no_pattern evs initState 0 hall
      (by simp [initState]) (by simp [initState]) rfl
    refine ⟨h0.1, fun hp => ?_⟩
    have hnone : (runSys evs).1.current_pattern = none := h0.2.1
    rw [hnone] at hp
    simp at hp
  · exact runSys_foldl_off_imp_vel evs initState 0 (by simp [initState])

/-- Witness for C1: the one-event sequence `offboard/start` contains no
pattern request; the theorem's first part yields `is_offboard` from
`velocity_enabled`, and its second part yields `velocity_enabled` from
`is_offboard`, all hypotheses discharged by evaluation. -/
theorem invariants_only_without_pattern_requests_witness :
    (([Ev.route Op.offboardStart].all fun e => !e.isPatternRequest) = true) ∧
    (runSys [Ev.route Op.offboardStart]).1.is_offboard = true ∧
    (runSys [Ev.route Op.offboardStart]).1.velocity_enabled = true :=
  ⟨by decide,
   ((invariants_only_without_pattern_requests
       [Ev.route Op.offboardStart]).1 (by decide)).1 (by decide),
   (invariants_only_without_pattern_requests
       [Ev.route Op.offboardStart]).2 (by decide)⟩

/-- C2 (corrected, amended): the number of log entries one operation
appends, case by case: the six vehicle-action routes and `logs/clear`
append exactly one; a pattern request appends one unless rejected for a
pattern already running (then none); `offboard/start` and `offboard/stop`
append one only when they change the mode; velocity requests never append
an entry, accepted or rejected. -/
theorem log_entries_per_operation (s : FlightState) (op : Op) :
    ((stepE s op).entries).length =
      (match op with
       | .arm | .disarm | .takeoff | .land | .rtl | .emergency | .clearLogs => 1
       | .pattern _ _ _ _ => if s.current_pattern.isSome then 0 else 1
       | .offboardStart => if s.is_offboard then 0 else 1
       | .offboardStop => if s.is_offboard then 1 else 0
       | .velocity _ _ _ _ => 0) := by
  cases op <;>
    simp only [stepE] <;>
    (try split) <;> (try split) <;>
    simp_all

/-- C2 counterexample: a `startPattern` rejected because a pattern is
already running appends no log entry, and a velocity request (here
rejected because offboard is inactive) appends no log entry — not exactly
one as claimed. -/
theorem rejected_pattern_and_velocity_append_no_log :
    ((stepE ((stepE initState (Op.pattern "square" 4 3 1)).state)
        (Op.pattern "circle" 4 3 1)).entries).length = 0 ∧
    ((stepE initState (Op.velocity 1 0 0 0)).entries).length = 0 ∧
    (0 : ℕ) ≠ 1 := by
  decide

/-- C3 (confirmed): a `startPattern` request issued while a pattern is
active is rejected with the "Pattern already running" error, appends no
log entry, spawns no second worker, issues no vehicle-link call, and
leaves the whole flight state (in particular `current_pattern`) unchanged. -/
theorem pattern_rejected_when_active (s : FlightState)
    (shape : String) (size height speed : ℚ)
    (h : s.current_pattern.isSome = true) :
    stepE s (.pattern shape size height speed) =
      ⟨s, .err "Pattern already running", [], none, []⟩ := by
  simp [stepE, h]

/-- Witness for C3: with a square pattern active, a second pattern request
is rejected and changes nothing. -/
theorem pattern_rejected_when_active_witness :
    ((run [Op.pattern "square" 4 3 1]).current_pattern.isSome = true) ∧
      stepE (run [Op.pattern "square" 4 3 1]) (.pattern "circle" 5 5 (1/2)) =
        ⟨run [Op.pattern "square" 4 3 1], .err "Pattern already running",
         [], none, []⟩ :=
  ⟨by decide, pattern_rejected_when_active _ _ _ _ _ (by decide)⟩

/-- C4 (confirmed): `startPattern("square", size=4, height=3,
speedFactor=1.0)` is dispatched with height normalized to `-3`, and the
square trajectory is exactly the five waypoints
`(0,0),(4,0),(4,4),(0,4),(0,0)` with headings `0,90,180,270,0` degrees,
each held `max(3.0, 1.0*3) = 3.0` seconds, hence at least 3 s. -/
theorem square_scenario_waypoints :
    (stepE initState (Op.pattern "square" 4 3 1)).spawned =
        some (Shape.square, 4, -3, 1) ∧
    squareWaypoints 4 (-3) 1 =
      [⟨0, 0, -3, 0, 3⟩, ⟨4, 0, -3, 90, 3⟩, ⟨4, 4, -3, 180, 3⟩,
       ⟨0, 4, -3, 270, 3⟩, ⟨0, 0, -3, 0, 3⟩] ∧
    (squareWaypoints 4 (-3) 1).map WaypointQ.hold =
      List.replicate 5 (max 3 (1 * 3)) ∧
    (3 : ℚ) ≤ max 3 (1 * 3) := by
  refine ⟨by decide, ?_, ?_, ?_⟩
  · simp [squareWaypoints, one_mul, max_self]
  · simp [squareWaypoints, List.replicate, one_mul, max_self]
  · simp

/-- C5 counterexample: a `startPattern` request with non-positive size
(`size = -1`) is not rejected: it is accepted, mutates `current_pattern`,
and launches the worker with the non-positive size. -/
theorem nonpositive_size_accepted :
    (stepE initState (Op.pattern "square" (-1) 3 1)).outcome =
        .ok "square pattern started" ∧
    (stepE initState (Op.pattern "square" (-1) 3 1)).spawned =
        some (Shape.square, -1, -3, 1) ∧
    (stepE initState (Op.pattern "square" (-1) 3 1)).state.current_pattern =
        some Shape.square := by
  decide

/-- C5 (corrected, amended): app.py performs no size validation: whenever
no pattern is active and the shape is recognized, a request with
`size ≤ 0` is accepted like any other — the worker is spawned with that
size (and the normalized height), `current_pattern` is set, and the
outcome is the success report.  Only unknown shapes are rejected
synchronously. -/
theorem size_not_validated (s : FlightState) (shape : String) (sh : Shape)
    (size height speed : ℚ) (hpat : s.current_pattern = none)
    (hsh : parseShape (pyLower shape) = some sh) (_hsz : size ≤ 0) :
    (stepE s (.pattern shape size height speed)).spawned =
        some (sh, size, -|height|, speed) ∧
      (stepE s (.pattern shape size height speed)).state.current_pattern =
        some sh ∧
      (stepE s (.pattern shape size height speed)).outcome =
        .ok (pyLower shape ++ " pattern started") := by
  simp [stepE, logAll, hpat, hsh]

/-- Witness for C5: the concrete `size = -1` request against the initial
state, with all hypotheses discharged by evaluation. -/
theorem size_not_validated_witness :
    initState.current_pattern = none ∧
      parseShape (pyLower "square") = some Shape.square ∧
      (-1 : ℚ) ≤ 0 ∧
      (stepE initState (.pattern "square" (-1) 3 1)).spawned =
        some (Shape.square, -1, -|(3 : ℚ)|, 1) :=
  ⟨rfl, by decide, by norm_num,
    (size_not_validated initState "square" Shape.square (-1) 3 1 rfl
      (by decide) (by norm_num)).1⟩

lemma atan2_east (x : ℝ) (hx : 0 ≤ x) : atan2 0 x = 0 := by
  unfold atan2
  simp only [Complex.ofReal_zero, zero_mul, add_zero]
  exact Complex.arg_ofReal_of_nonneg hx

lemma atan2_north (y : ℝ) (hy : 0 < y) : atan2 y 0 = Real.pi / 2 := by
  unfold atan2
  simp only [Complex.ofReal_zero, zero_add]
  rw [Complex.arg_real_mul _ hy, Complex.arg_I]

lemma atan2_west (x : ℝ) (hx : x < 0) : atan2 0 x = Real.pi := by
  unfold atan2
  simp only [Complex.ofReal_zero, zero_mul, add_zero]
  exact Complex.arg_ofReal_of_neg hx

lemma atan2_south (y : ℝ) (hy : y < 0) : atan2 y 0 = -(Real.pi / 2) := by
  unfold atan2
  simp only [Complex.ofReal_zero, zero_add]
  have h : ((y : ℂ)) * Complex.I = ((-y : ℝ) : ℂ) * (-Complex.I) := by
    push_cast
    ring
  rw [h, Complex.arg_real_mul _ (by linarith), Complex.arg_neg_I]

lemma degOf_zero : degOf 0 = 0 := by simp [degOf]

lemma degOf_pi : degOf Real.pi = 180 := by
  rw [degOf]
  field_simp

lemma degOf_half_pi : degOf (Real.pi / 2) = 90 := by
  rw [degOf]
  field_simp
  ring

lemma degOf_neg_half_pi : degOf (-(Real.pi / 2)) = -90 := by
  rw [degOf]
  field_simp
  ring

lemma bearingDeg_east (s : ℝ) (hs : 0 < s) : bearingDeg s 0 = 0 := by
  rw [bearingDeg, atan2_east s hs.le, degOf_zero]

lemma bearingDeg_north (s : ℝ) (hs : 0 < s) : bearingDeg 0 s = 90 := by
  rw [bearingDeg, atan2_north s hs, degOf_half_pi]

lemma bearingDeg_west (s : ℝ) (hs : 0 < s) : bearingDeg (-s) 0 = 180 := by
  rw [bearingDeg, atan2_west (-s) (by linarith), degOf_pi]

lemma bearingDeg_south (s : ℝ) (hs : 0 < s) : bearingDeg 0 (-s) = -90 := by
  rw [bearingDeg, atan2_south (-s) (by linarith), degOf_neg_half_pi]

/-- C7 counterexample: the first triangle waypoint carries heading 60°,
but the bearing from that vertex `(0,0)` toward the next vertex
`(size, 0)` is 0° — so vertex-pattern headings are not, in general, the
bearing toward the next vertex. -/
theorem triangle_heading_not_next_vertex_bearing :
    ((triangleWaypoints 4 (-3) 1).getD 0 default).yaw = 60 ∧
    bearingDeg
        (((triangleWaypoints 4 (-3) 1).getD 1 default).x -
          ((triangleWaypoints 4 (-3) 1).getD 0 default).x)
        (((triangleWaypoints 4 (-3) 1).getD 1 default).y -
          ((triangleWaypoints 4 (-3) 1).getD 0 default).y) = 0 ∧
    ((triangleWaypoints 4 (-3) 1).getD 0 default).yaw ≠
      bearingDeg
        (((triangleWaypoints 4 (-3) 1).getD 1 default).x -
          ((triangleWaypoints 4 (-3) 1).getD 0 default).x)
        (((triangleWaypoints 4 (-3) 1).getD 1 default).y -
          ((triangleWaypoints 4 (-3) 1).getD 0 default).y) := by
  have h1 : ((triangleWaypoints 4 (-3) 1).getD 0 default).yaw = 60 := by
    simp [triangleWaypoints]
  have h2 : bearingDeg
      (((triangleWaypoints 4 (-3) 1).getD 1 default).x -
        ((triangleWaypoints 4 (-3) 1).getD 0 default).x)
      (((triangleWaypoints 4 (-3) 1).getD 1 default).y -
        ((triangleWaypoints 4 (-3) 1).getD 0 default).y) = 0 := by
    have hx : ((triangleWaypoints 4 (-3) 1).getD 1 default).x -
        ((triangleWaypoints 4 (-3) 1).getD 0 default).x = 4 := by
      simp [triangleWaypoints]
    have hy : ((triangleWaypoints 4 (-3) 1).getD 1 default).y -
        ((triangleWaypoints 4 (-3) 1).getD 0 default).y = 0 := by
      simp [triangleWaypoints]
    rw [hx, hy]
    exact bearingDeg_east 4 (by norm_num)
  exact ⟨h1, h2, by rw [h1, h2]; norm_num⟩

/-- C7 (corrected, amended): only the square's waypoint headings equal the
bearing toward the next vertex — exactly for the first three legs and
modulo 360° (270° = −90° + 360°) on the fourth, with the fixed closing
heading 0° on the final waypoint.  The triangle instead uses the fixed
headings 60°, 180°, 300°, 0°, and each star waypoint's heading is the
bearing from the origin to that vertex itself, not toward the next vertex. -/
theorem square_heading_is_next_vertex_bearing (sq hq d : ℚ) (hs : 0 < sq) :
    List.zipWith
        (fun a b => (((a.yaw : ℚ) : ℝ),
          bearingDeg (((b.x : ℚ) : ℝ) - ((a.x : ℚ) : ℝ))
            (((b.y : ℚ) : ℝ) - ((a.y : ℚ) : ℝ))))
        (squareWaypoints sq hq d) (squareWaypoints sq hq d).tail =
      [(0, 0), (90, 90), (180, 180), (270, -90)] ∧
    (270 : ℝ) = -90 + 360 ∧
    ((squareWaypoints sq hq d).getLast?.map WaypointQ.yaw) = some 0 ∧
    (triangleWaypoints sq hq d).map WaypointR.yaw = [60, 180, 300, 0] ∧
    ∀ w ∈ starWaypoints sq hq d, w.yaw = bearingDeg w.x w.y := by
  have hsR : (0 : ℝ) < (sq : ℝ) := by exact_mod_cast hs
  refine ⟨?_, by norm_num, ?_, ?_, ?_⟩
  · have e1 : bearingDeg ((sq : ℝ) - 0) (0 - 0) = 0 := by
      rw [sub_zero, sub_self]
      exact bearingDeg_east _ hsR
    have e2 : bearingDeg ((sq : ℝ) - (sq : ℝ)) ((sq : ℝ) - 0) = 90 := by
      rw [sub_zero, sub_self]
      exact bearingDeg_north _ hsR
    have e3 : bearingDeg (0 - (sq : ℝ)) ((sq : ℝ) - (sq : ℝ)) = 180 := by
      rw [zero_sub, sub_self]
      exact bearingDeg_west _ hsR
    have e4 : bearingDeg (0 - 0) (0 - (sq : ℝ)) = -90 := by
      rw [sub_self, zero_sub]
      exact bearingDeg_south _ hsR
    simp only [squareWaypoints, List.tail_cons, List.zipWith_cons_cons,
      List.zipWith_nil_right]
    push_cast
    rw [e1, e2, e3, e4]
  · simp [squareWaypoints]
  · simp [triangleWaypoints]
  · intro w hw
    simp only [starWaypoints, List.mem_map] at hw
    obtain ⟨idx, -, rfl⟩ := hw
    rfl

/-- Witness for C7: the square's leg headings versus leg bearings at the
concrete size 4, with the size-positivity hypothesis discharged by
evaluation. -/
theorem square_heading_is_next_vertex_bearing_witness :
    (0 : ℚ) < 4 ∧
    List.zipWith
        (fun a b => (((a.yaw : ℚ) : ℝ),
          bearingDeg (((b.x : ℚ) : ℝ) - ((a.x : ℚ) : ℝ))
            (((b.y : ℚ) : ℝ) - ((a.y : ℚ) : ℝ))))
        (squareWaypoints 4 (-3) 1) (squareWaypoints 4 (-3) 1).tail =
      [(0, 0), (90, 90), (180, 180), (270, -90)] :=
  ⟨by norm_num, (square_heading_is_next_vertex_bearing 4 (-3) 1 (by norm_num)).1⟩

lemma cos_two_mul_two_pi : Real.cos (2 * (2 * Real.pi)) = 1 := by
  have h := Real.cos_nat_mul_two_pi 2
  push_cast at h
  exact h

lemma cos_three_mul_two_pi : Real.cos (3 * (2 * Real.pi)) = 1 := by
  have h := Real.cos_nat_mul_two_pi 3
  push_cast at h
  exact h

lemma cos_four_mul_two_pi : Real.cos (4 * (2 * Real.pi)) = 1 := by
  have h := Real.cos_nat_mul_two_pi 4
  push_cast at h
  exact h

/-- C8 (confirmed): for every size parameter, the infinity (Gerono
lemniscate), heart, and figure-8 (Lissajous) curve formulas return to
their starting point: the point at parameter `t = 2*pi` equals the point
at `t = 0` — here exactly (difference zero), hence within the claimed
1e-6 tolerance. -/
theorem closed_curves_return_to_start (s : ℝ) :
    |infinityX s (2 * Real.pi) - infinityX s 0| ≤ 1 / 1000000 ∧
    |infinityY s (2 * Real.pi) - infinityY s 0| ≤ 1 / 1000000 ∧
    |heartX s (2 * Real.pi) - heartX s 0| ≤ 1 / 1000000 ∧
    |heartY s (2 * Real.pi) - heartY s 0| ≤ 1 / 1000000 ∧
    |figure8X s (2 * Real.pi) - figure8X s 0| ≤ 1 / 1000000 ∧
    |figure8Y s (2 * Real.pi) - figure8Y s 0| ≤ 1 / 1000000 := by
  refine ⟨?_, ?_, ?_, ?_, ?_, ?_⟩ <;>
    simp [infinityX, infinityY, heartX, heartY, figure8X, figure8Y,
      Real.cos_two_pi, Real.sin_two_pi, Real.cos_zero, Real.sin_zero,
      cos_two_mul_two_pi, cos_three_mul_two_pi, cos_four_mul_two_pi,
      mul_zero, zero_mul, sub_self]

lemma drawSegment_length (pt : ℕ → Setpoint) (n : ℕ) (d : ℚ) :
    (drawSegment pt n d).length = (n + 1) * repeatCount d := by
  rw [drawSegment, List.length_flatMap,
    show (List.length ∘ fun i => List.replicate (repeatCount d) (pt i)) =
        fun _ : ℕ => repeatCount d from funext fun i => by simp]
  simp [List.map_const', List.sum_replicate, List.length_range, smul_eq_mul]

/-- C6 (corrected, amended): in the continuous-curve drawing loops (circle
and infinity shown), each geometric sample is retransmitted exactly
`max(3, int(speedFactor*10))` times — `int` truncation, not rounding —
before the loop advances, so the whole drawing segment is
`(samples) * max(3, trunc(speedFactor*10))` transmissions long. -/
theorem curve_sample_retransmissions (r h : ℝ) (steps : ℕ) (d : ℚ) :
    drawSegment (circlePoint r h (max steps 100)) (max steps 100) d =
      (List.range (max steps 100 + 1)).flatMap
        (fun i => List.replicate ((max 3 (pyInt (d * 10))).toNat)
          (circlePoint r h (max steps 100) i)) ∧
    drawSegment (infinityPoint r h (max steps 120)) (max steps 120) d =
      (List.range (max steps 120 + 1)).flatMap
        (fun i => List.replicate ((max 3 (pyInt (d * 10))).toNat)
          (infinityPoint r h (max steps 120) i)) ∧
    (drawSegment (circlePoint r h (max steps 100)) (max steps 100) d).length =
      (max steps 100 + 1) * (max 3 (pyInt (d * 10))).toNat ∧
    (drawSegment (infinityPoint r h (max steps 120)) (max steps 120) d).length =
      (max steps 120 + 1) * (max 3 (pyInt (d * 10))).toNat :=
  ⟨rfl, rfl, drawSegment_length _ _ _, drawSegment_length _ _ _⟩

/-- C6 counterexample: at `speedFactor = 0.55` the code's truncation gives
`max(3, int(5.5)) = 5` retransmissions per sample, not the claimed
`max(3, round(5.5)) = 6` — shown on a one-sample drawing segment. -/
theorem retransmission_truncates_not_rounds :
    repeatCount (11/20) = 5 ∧
    (max 3 (round ((11/20 : ℚ) * 10))).toNat = 6 ∧
    (drawSegment (circlePoint 5 (-3) 100) 0 (11/20)).length = 5 ∧
    (5 : ℕ) ≠ 6 := by
  have hm : (11/20 : ℚ) * 10 = 11/2 := by norm_num
  have hf : ⌊(11/2 : ℚ)⌋ = 5 := by
    rw [Int.floor_eq_iff]
    constructor <;> norm_num
  have hp : pyInt ((11/20 : ℚ) * 10) = 5 := by
    rw [hm, pyInt, if_pos (by norm_num), hf]
  have hrc : repeatCount (11/20) = 5 := by
    rw [repeatCount, hp]
    rfl
  have hround : (max 3 (round ((11/20 : ℚ) * 10))).toNat = 6 := by
    have hr : round ((11/20 : ℚ) * 10) = 6 := by
      rw [hm, round_eq]
      have h6 : (11/2 + 1/2 : ℚ) = 6 := by norm_num
      rw [h6]
      simp
    rw [hr]
    rfl
  exact ⟨hrc, hround, by rw [drawSegment_length, hrc], by norm_num⟩

lemma z_of_prepare {p : Setpoint} {h : ℝ} (hp : p ∈ prepareSetpoints h) :
    p.z = h := by
  simp only [prepareSetpoints, List.mem_replicate] at hp
  rw [hp.2]

lemma z_of_flyTo {p : Setpoint} {x y z yaw : ℝ} {dur : ℚ}
    (hp : p ∈ flyToSetpoints x y z yaw dur) : p.z = z := by
  simp only [flyToSetpoints, List.mem_replicate] at hp
  rw [hp.2]

lemma z_of_draw {p : Setpoint} {pt : ℕ → Setpoint} {n : ℕ} {d : ℚ} {h : ℝ}
    (hpt : ∀ i, (pt i).z = h) (hp : p ∈ drawSegment pt n d) : p.z = h := by
  simp only [drawSegment, List.mem_flatMap, List.mem_range, List.mem_replicate] at hp
  obtain ⟨i, -, -, rfl⟩ := hp
  exact hpt i

lemma z_squareSetpoints {p : Setpoint} {size h d : ℚ}
    (hp : p ∈ squareSetpoints size h d) : p.z = (h : ℝ) := by
  simp only [squareSetpoints, List.mem_append] at hp
  rcases hp with hp | hp
  · exact z_of_prepare hp
  · rw [List.mem_flatMap] at hp
    obtain ⟨w, hw, hpw⟩ := hp
    have hz : p.z = ((w.z : ℚ) : ℝ) := z_of_flyTo hpw
    have hwz : w.z = h := by
      simp only [squareWaypoints, List.mem_cons, List.not_mem_nil, or_false] at hw
      rcases hw with rfl | rfl | rfl | rfl | rfl <;> rfl
    rw [hz, hwz]

lemma z_triangleSetpoints {p : Setpoint} {size h : ℝ} {d : ℚ}
    (hp : p ∈ triangleSetpoints size h d) : p.z = h := by
  simp only [triangleSetpoints, List.mem_append] at hp
  rcases hp with hp | hp
  · exact z_of_prepare hp
  · rw [List.mem_flatMap] at hp
    obtain ⟨w, hw, hpw⟩ := hp
    have hz : p.z = w.z := z_of_flyTo hpw
    have hwz : w.z = h := by
      simp only [triangleWaypoints, List.mem_cons, List.not_mem_nil, or_false] at hw
      rcases hw with rfl | rfl | rfl | rfl <;> rfl
    rw [hz, hwz]

lemma z_starSetpoints {p : Setpoint} {size h : ℝ} {d : ℚ}
    (hp : p ∈ starSetpoints size h d) : p.z = h := by
  simp only [starSetpoints, List.mem_append] at hp
  rcases hp with hp | hp
  · exact z_of_prepare hp
  · rw [List.mem_flatMap] at hp
    obtain ⟨w, hw, hpw⟩ := hp
    have hz : p.z = w.z := z_of_flyTo hpw
    have hwz : w.z = h := by
      simp only [starWaypoints, List.mem_map] at hw
      obtain ⟨idx, -, rfl⟩ := hw
      rfl
    rw [hz, hwz]

lemma z_circleSetpoints {p : Setpoint} {r h : ℝ} {steps : ℕ} {d : ℚ}
    (hp : p ∈ circleSetpoints r h steps d) : p.z = h := by
  simp only [circleSetpoints, List.mem_append] at hp
  rcases hp with ((hp | hp) | hp) | hp
  · exact z_of_prepare hp
  · exact z_of_flyTo hp
  · exact z_of_draw (fun i => rfl) hp
  · simp only [List.mem_replicate] at hp
    rw [hp.2]

lemma z_infinitySetpoints {p : Setpoint} {s h : ℝ} {steps : ℕ} {d : ℚ}
    (hp : p ∈ infinitySetpoints s h steps d) : p.z = h := by
  simp only [infinitySetpoints, List.mem_append] at hp
  rcases hp with ((hp | hp) | hp) | hp
  · exact z_of_prepare hp
  · exact z_of_flyTo hp
  · exact z_of_draw (fun i => rfl) hp
  · simp only [List.mem_replicate] at hp
    rw [hp.2]

lemma z_heartSetpoints {p : Setpoint} {s h : ℝ} {steps : ℕ} {d : ℚ}
    (hp : p ∈ heartSetpoints s h steps d) : p.z = h := by
  simp only [heartSetpoints, List.mem_append] at hp
  rcases hp with ((hp | hp) | hp) | hp
  · exact z_of_prepare hp
  · exact z_of_flyTo hp
  · exact z_of_draw (fun i => rfl) hp
  · simp only [List.mem_replicate] at hp
    rw [hp.2]

lemma z_spiralSetpoints {p : Setpoint} {s h : ℝ} {steps : ℕ} {d : ℚ}
    (hp : p ∈ spiralSetpoints s h steps d) : p.z = h := by
  simp only [spiralSetpoints, List.mem_append] at hp
  rcases hp with ((hp | hp) | hp) | hp
  · exact z_of_prepare hp
  · exact z_of_flyTo hp
  · exact z_of_draw (fun i => rfl) hp
  · simp only [List.mem_replicate] at hp
    rw [hp.2]

lemma z_figure8Setpoints {p : Setpoint} {s h : ℝ} {steps : ℕ} {d : ℚ}
    (hp : p ∈ figure8Setpoints s h steps d) : p.z = h := by
  simp only [figure8Setpoints, List.mem_append] at hp
  rcases hp with ((hp | hp) | hp) | hp
  · exact z_of_prepare hp
  · exact z_of_flyTo hp
  · exact z_of_draw (fun i => rfl) hp
  · simp only [List.mem_replicate] at hp
    rw [hp.2]

lemma patternSetpoints_z (sh : Shape) (size h d : ℚ) (p : Setpoint)
    (hp : p ∈ patternSetpoints sh size h d) : p.z = (h : ℝ) := by
  cases sh
  case square => exact z_squareSetpoints hp
  case triangle => exact z_triangleSetpoints hp
  case circle => exact z_circleSetpoints hp
  case star => exact z_starSetpoints hp
  case infinity => exact z_infinitySetpoints hp
  case heart => exact z_heartSetpoints hp
  case spiral => exact z_spiralSetpoints hp
  case figure8 => exact z_figure8Setpoints hp

/-- C10 (confirmed): whenever a pattern request is accepted (a worker is
spawned), the height the worker receives is `-abs(height)`, and every
position setpoint of the resulting pattern stream — priming, transit,
curve samples and final holds — has a non-positive z (altitude)
component, whatever the sign of the operator-supplied height. -/
theorem accepted_pattern_altitude_nonpositive (s : FlightState)
    (shape : String) (size height speed : ℚ) (sh : Shape) (sz hh dd : ℚ)
    (hsp : (stepE s (.pattern shape size height speed)).spawned =
      some (sh, sz, hh, dd)) :
    hh = -|height| ∧ ∀ p ∈ patternSetpoints sh sz hh dd, p.z ≤ 0 := by
  have hh_eq : hh = -|height| := by
    by_cases hc : s.current_pattern.isSome
    · simp [stepE, hc] at hsp
    · rcases hpe : parseShape (pyLower shape) with _ | q
      · simp [stepE, hc, hpe] at hsp
      · simp only [stepE, hc, hpe, Bool.false_eq_true, if_false] at hsp
        simp only [Option.some.injEq, Prod.mk.injEq] at hsp
        exact hsp.2.2.1.symm
  refine ⟨hh_eq, fun p hp => ?_⟩
  rw [patternSetpoints_z sh sz hh dd p hp]
  have hq : hh ≤ 0 := by
    rw [hh_eq]
    exact neg_nonpos.mpr (abs_nonneg _)
  exact_mod_cast hq

/-- Witness for C10: the concrete accepted square request with height 3;
the priming setpoint `(0, 0, -3, 0)` is in the stream and its z is
non-positive. -/
theorem accepted_pattern_altitude_nonpositive_witness :
    (stepE initState (.pattern "square" 4 3 1)).spawned =
        some (Shape.square, 4, -3, 1) ∧
      (⟨0, 0, -3, 0⟩ : Setpoint) ∈ patternSetpoints Shape.square 4 (-3) 1 ∧
      (⟨0, 0, -3, 0⟩ : Setpoint).z ≤ 0 := by
  have hmem : (⟨0, 0, -3, 0⟩ : Setpoint) ∈ patternSetpoints Shape.square 4 (-3) 1 := by
    have hcast : ((⟨0, 0, -3, 0⟩ : Setpoint) : Setpoint) =
        ⟨0, 0, ((-3 : ℚ) : ℝ), 0⟩ := by
      norm_num
    rw [hcast]
    simp only [patternSetpoints, squareSetpoints, List.mem_append]
    exact Or.inl (by simp [prepareSetpoints, List.mem_replicate])
  exact ⟨by decide, hmem,
    (accepted_pattern_altitude_nonpositive initState "square" 4 3 1
        Shape.square 4 (-3) 1 (by decide)).2 _ hmem⟩
